import Mathlib

/-!
Shallow embedding of the credential / session authentication engine of the
`kenya_backend` Rust service (files `src/services/password_service.rs`,
`src/services/token_service.rs`, `src/services/two_fa_service.rs`,
`src/services/auth_service.rs`, `src/models/auth.rs`, `src/models/user.rs`).

Modelling conventions:
* Timestamps are `Int` seconds since the epoch (chrono `DateTime<Utc>`
  comparisons are modelled at second granularity; all durations in the source
  are whole seconds: `Duration::minutes(5)` = 300 s, `Duration::minutes(30)` =
  1800 s, `Duration::hours(8)` = 28800 s).
* Cryptography is idealised: an Argon2 digest of password `p` is the value
  `Digest.argon2 p` (collision-free, as the ideal hash), a bcrypt digest is
  `Digest.bcrypt p`.  The *control flow* of `verify_password_with_context` is
  translated exactly, including the documented behaviour of the `bcrypt` crate
  that `bcrypt::verify` returns `Err(InvalidHash)` when the digest string is
  not a bcrypt-format hash (an Argon2 PHC string is not).
* Database reads/writes are abstracted: each operation receives the fetched
  `User` record and returns the record it writes back, plus the list of
  security-event (audit) rows and login-attempt rows it inserts.
* Randomness (`rand::thread_rng`) is an explicit parameter: a function
  `Nat → Nat` giving the value of the n-th `gen_range` call; values are
  reduced `% range` so every actual generator outcome is represented.
* The HMAC-SHA1 core of `totp_lite::totp` is an abstract step function
  `stepFn : Nat → Nat`; `totp_lite` derives the 6-digit code from
  `time / 30` (30-second steps) and truncates to 6 digits.
-/

namespace KenyaAuth

/-- `AuthError` from `src/models/auth.rs`. -/
inductive AuthError where
  | InvalidCredentials
  | AccountLocked
  | TokenExpired
  | InvalidToken
  | PasswordTooWeak
  | PasswordMismatch
  | TooManyAttempts
  | SessionExpired
  | Unauthorized
  | InternalError (msg : String)
deriving DecidableEq, Repr

/-- Idealised self-describing password digest (the Rust code stores a PHC /
bcrypt string; the algorithm tag is embedded in the string, modelled as the
constructor; the ideal hash records the hashed password). -/
inductive Digest where
  | argon2 (pw : String)
  | bcrypt (pw : String)
  | garbled
deriving DecidableEq, Repr

/-- `PasswordPolicy` from `src/models/auth.rs`. -/
structure PasswordPolicy where
  min_length : Nat
  require_uppercase : Bool
  require_lowercase : Bool
  require_numbers : Bool
  require_special_chars : Bool
  max_repeating_chars : Nat
  forbidden_patterns : List String
deriving Repr

/-- `PasswordPolicy::default()`. -/
def defaultPolicy : PasswordPolicy :=
  { min_length := 12
    require_uppercase := true
    require_lowercase := true
    require_numbers := true
    require_special_chars := true
    max_repeating_chars := 3
    forbidden_patterns := ["123", "abc", "password", "qwerty", "kenya", "government"] }

/-- The special-character set of `validate_password_strength`
(`"!@#$%^&*()_+-=[]{}|;:,.<>?"`). -/
def specialChars : List Char := "!@#$%^&*()_+-=[]\x7b\x7d|;:,.<>?".toList

/-- Does `hay` start with `needle`?  (helper for Rust `str::contains`). -/
def startsWithList : List Char → List Char → Bool
  | _, [] => true
  | [], _ :: _ => false
  | a :: as, b :: bs => a = b && startsWithList as bs

/-- Rust `str::contains(pattern)` on character lists. -/
def containsSub : List Char → List Char → Bool
  | hay, needle =>
    if startsWithList hay needle then true
    else match hay with
      | [] => false
      | _ :: t => containsSub t needle

/-- Maximum run of consecutive equal characters, computed exactly as the loop
in `PasswordService::has_excessive_repeating_chars` (`count`/`max_count`
both start at 1; the empty string yields 1). -/
def maxRunAux : List Char → Char → Nat → Nat → Nat
  | [], _, _, maxc => maxc
  | c :: rest, prev, count, maxc =>
    if c = prev then maxRunAux rest c (count + 1) (max maxc (count + 1))
    else maxRunAux rest c 1 maxc

/-- `max_count` computed by the repeating-character loop. -/
def maxRepeatRun (chars : List Char) : Nat :=
  match chars with
  | [] => 1
  | c :: rest => maxRunAux rest c 1 1

/-- `PasswordService::has_excessive_repeating_chars`. -/
def has_excessive_repeating_chars (policy : PasswordPolicy) (password : List Char) : Bool :=
  maxRepeatRun password > policy.max_repeating_chars

/-- The list of violated-rule messages collected by
`PasswordService::validate_password_strength` (ASCII passwords: Rust byte
length and Unicode char classes coincide with `List.length` / `Char.isUpper`
etc. on the character sets involved). -/
def strengthErrors (policy : PasswordPolicy) (password : List Char) : List String :=
  (if password.length < policy.min_length then
    ["Password must be at least " ++ toString policy.min_length ++ " characters long"] else [])
  ++ (if policy.require_uppercase && !(password.any (fun c => c.isUpper)) then
    ["Password must contain at least one uppercase letter"] else [])
  ++ (if policy.require_lowercase && !(password.any (fun c => c.isLower)) then
    ["Password must contain at least one lowercase letter"] else [])
  ++ (if policy.require_numbers && !(password.any (fun c => c.isDigit)) then
    ["Password must contain at least one number"] else [])
  ++ (if policy.require_special_chars && !(password.any (fun c => specialChars.contains c)) then
    ["Password must contain at least one special character"] else [])
  ++ (if has_excessive_repeating_chars policy password then
    ["Password cannot have more than " ++ toString policy.max_repeating_chars ++ " repeating characters"] else [])
  ++ (policy.forbidden_patterns.filterMap (fun pat =>
        if containsSub (password.map Char.toLower) (pat.toList.map Char.toLower) then
          some ("Password cannot contain the pattern: " ++ pat)
        else none))

/-- `PasswordService::validate_password_strength`: `Ok(())` iff no rule is
violated, otherwise `Err(PasswordTooWeak)`. -/
def validate_password_strength (policy : PasswordPolicy) (password : List Char) :
    Except AuthError Unit :=
  if strengthErrors policy password = [] then .ok () else .error .PasswordTooWeak

/-- `PasswordService::hash_password`: validates strength first, then hashes
with Argon2 (the bcrypt fallback only fires on a catastrophic Argon2 failure,
which the ideal model excludes). -/
def hash_password (policy : PasswordPolicy) (password : List Char) :
    Except AuthError Digest :=
  match validate_password_strength policy password with
  | .error e => .error e
  | .ok _ => .ok (.argon2 (String.mk password))

/-- `PasswordService::verify_password_with_context` / `verify_password`.
Control flow of the source:
* Argon2-format digest: `PasswordHash::new` parses it; `Argon2::verify_password`
  succeeds exactly on the hashed password; on mismatch the code falls through
  to `bcrypt::verify`, which cannot parse an Argon2 PHC string and returns
  `Err`, so the function returns `Err(InvalidCredentials)`.
* bcrypt-format digest: the Argon2 path does not verify it; `bcrypt::verify`
  parses it and returns `Ok(matches)`.
* garbled digest: both parses fail → `Err(InvalidCredentials)`. -/
def verify_password (password : List Char) (hash : Digest) : Except AuthError Bool :=
  match hash with
  | .argon2 stored =>
    if String.mk password = stored then .ok true else .error .InvalidCredentials
  | .bcrypt stored => .ok (String.mk password = stored)
  | .garbled => .error .InvalidCredentials

/-- `PasswordService::passwords_are_same`: same `verify` path, an `Err` is
read as "passwords are different". -/
def passwords_are_same (new_password : List Char) (current_hash : Digest) : Bool :=
  match verify_password new_password current_hash with
  | .ok is_same => is_same
  | .error _ => false

/-!  `PasswordService::generate_temporary_password`.  The thread-local RNG is
modelled as `rand : Nat → Nat` giving the value of the n-th `gen_range` call;
each value is reduced modulo the requested range, so every genuine generator
outcome corresponds to some `rand`. -/

/-- `"ABCDEFGHIJKLMNOPQRSTUVWXYZ"` of the generator. -/
def upperSet : List Char := "ABCDEFGHIJKLMNOPQRSTUVWXYZ".toList

/-- `"abcdefghijklmnopqrstuvwxyz"` of the generator. -/
def lowerSet : List Char := "abcdefghijklmnopqrstuvwxyz".toList

/-- `"0123456789"` of the generator. -/
def numberSet : List Char := "0123456789".toList

/-- `"!@#$%^&*"` of the generator. -/
def specialSet : List Char := "!@#$%^&*".toList

/-- `all_chars = uppercase + lowercase + numbers + special`. -/
def allTempChars : List Char := upperSet ++ lowerSet ++ numberSet ++ specialSet

/-- `chars().nth(i).unwrap()` with the in-range default irrelevant. -/
def nthChar (s : List Char) (i : Nat) : Char := s.getD i 'A'

/-- The random-fill loop: `min_length - 4` characters drawn from `all_chars`,
consuming RNG calls `start, start+1, …`. -/
def tempFill (rand : Nat → Nat) : Nat → Nat → List Char
  | 0, _ => []
  | k + 1, start =>
    nthChar allTempChars (rand start % allTempChars.length) ::
      tempFill rand k (start + 1)

/-- `Vec::swap(i, j)` on a list (no-op when an index is out of bounds, which
never happens for the in-range indices the generator produces). -/
def swapAt (l : List Char) (i j : Nat) : List Char :=
  match l.get? i, l.get? j with
  | some a, some b => (l.set i b).set j a
  | _, _ => l

/-- The shuffle loop `for i in 0..chars.len() { let j = gen_range(0..len);
chars.swap(i, j) }`, run with fuel = `chars.len()` (swapping preserves the
length, so the fuel is exact). -/
def shuffleAux (rand : Nat → Nat) (base : Nat) : Nat → Nat → List Char → List Char
  | 0, _, chars => chars
  | fuel + 1, i, chars =>
    shuffleAux rand base fuel (i + 1) (swapAt chars i (rand (base + i) % chars.length))

/-- The final shuffle of `generate_temporary_password`. -/
def shuffle (rand : Nat → Nat) (base : Nat) (chars : List Char) : List Char :=
  shuffleAux rand base chars.length 0 chars

/-- `PasswordService::generate_temporary_password`: one character from each
class (RNG calls 0–3), then `min_length - 4` characters from the full
alphabet (RNG calls 4 …), then the swap-shuffle (one RNG call per position). -/
def generate_temporary_password (policy : PasswordPolicy) (rand : Nat → Nat) : List Char :=
  let c1 := nthChar upperSet (rand 0 % upperSet.length)
  let c2 := nthChar lowerSet (rand 1 % lowerSet.length)
  let c3 := nthChar numberSet (rand 2 % numberSet.length)
  let c4 := nthChar specialSet (rand 3 % specialSet.length)
  let fill := tempFill rand (policy.min_length - 4) 4
  shuffle rand (4 + (policy.min_length - 4)) ([c1, c2, c3, c4] ++ fill)

/-!  `TwoFAService` (`src/services/two_fa_service.rs`). -/

/-- `totp_lite::totp::<Sha1>`: the 6-digit code is derived from the 30-second
time step `time / 30`; the HMAC core is the abstract `stepFn` and the result
is truncated to 6 decimal digits. -/
def totp (stepFn : Nat → Nat) (time : Nat) : Nat :=
  stepFn (time / 30) % 1000000

/-- `TwoFAService::generate_totp` at timestamp `time` (the optional offset is
already folded into `time`). -/
def generate_totp (stepFn : Nat → Nat) (time : Nat) : Nat :=
  totp stepFn time

/-- `TwoFAService::verify_totp`: tries the offsets `[-30, 0, 30]` against the
verifier clock `current_time` (negative offset via `saturating_sub`, which is
`Nat` subtraction) and accepts if any window matches. -/
def verify_totp (stepFn : Nat → Nat) (code : Nat) (current_time : Nat) : Bool :=
  totp stepFn (current_time - 30) = code ||
  totp stepFn current_time = code ||
  totp stepFn (current_time + 30) = code

/-- `Iterator::position` on the backup-code list. -/
def positionOf : List String → String → Option Nat
  | [], _ => none
  | c :: rest, target =>
    if c = target then some 0 else (positionOf rest target).map (· + 1)

/-- `TwoFAService::verify_backup_code`: the stored JSON array is modelled as
the decoded `List String` (serde round-trip abstracted); on a match the code
at the first matching position is removed, otherwise the list is returned
unchanged. -/
def verify_backup_code (backup_codes : List String) (provided : String) :
    Bool × List String :=
  match positionOf backup_codes provided with
  | some i => (true, backup_codes.eraseIdx i)
  | none => (false, backup_codes)

/-!  `TokenService` (`src/services/token_service.rs`).  JWT signing is
idealised: an issued token is its `Claims` record and the signature of a
token we model is always valid (structurally broken or forged tokens are not
in the model's domain; the claims only quantify over issued tokens). -/

/-- `SecurityConfig` from `src/models/auth.rs` (rate-limit subconfig omitted:
`check_rate_limit` is a stub that always permits). -/
structure SecurityConfig where
  jwt_secret : String
  jwt_expiration_hours : Int
  password_salt_rounds : Nat
  session_timeout_minutes : Int
  require_password_change : Bool
deriving Repr

/-- `SecurityConfig::default()`. -/
def defaultSecurityConfig : SecurityConfig :=
  { jwt_secret := "your-super-secret-jwt-key-change-this-in-production"
    jwt_expiration_hours := 8
    password_salt_rounds := 12
    session_timeout_minutes := 30
    require_password_change := true }

/-- JWT `Claims` from `src/models/auth.rs` (user ids abstracted to `Nat`;
`sub` is the id itself, `Uuid::parse_str` always succeeds on it). -/
structure Claims where
  sub : Nat
  username : String
  role : String
  exp : Int
  iat : Int
  iss : String
  aud : String
  jti : String
  session_id : String
  is_temp_password : Bool
deriving DecidableEq, Repr

/-- `TokenValidation` from `src/models/auth.rs`. -/
structure TokenValidation where
  user_id : Nat
  username : String
  role : String
  session_id : String
  is_temp_password : Bool
  expires_at : Int
deriving DecidableEq, Repr

/-- `User` from `src/models/user.rs` (fields `role`, `created_at`,
`updated_at` omitted: the role enum has the single variant `KenyaGovernment`
and the two bookkeeping timestamps are written but never read). -/
structure User where
  id : Nat
  username : String
  password_hash : Digest
  is_temporary_password : Bool
  last_login : Option Int
  login_attempts : Int
  is_locked : Bool
  lockout_expiry : Option Int
  password_changed_at : Option Int
  session_token : Option String
  session_expires_at : Option Int
  two_fa_enabled : Bool
  two_fa_secret : Option String
  two_fa_backup_codes : Option (List String)
  two_fa_enabled_at : Option Int
deriving DecidableEq, Repr

/-- `TokenService::generate_token`: expiry `now + jwt_expiration_hours`
hours, issuer `fsfvi-kenya-backend`, audience `kenya-government`, the single
role variant rendered as `kenya_government`. -/
def generate_token (cfg : SecurityConfig) (user : User) (session_id : String)
    (now : Int) (jti : String) : Claims :=
  { sub := user.id
    username := user.username
    role := "kenya_government"
    exp := now + cfg.jwt_expiration_hours * 3600
    iat := now
    iss := "fsfvi-kenya-backend"
    aud := "kenya-government"
    jti := jti
    session_id := session_id
    is_temp_password := user.is_temporary_password }

/-- The `jsonwebtoken::decode` stage configured in `TokenService::new`:
`leeway = 60` seconds on the expiry check, required issuer
`fsfvi-kenya-backend` and audience `kenya-government`; error kinds are mapped
as in `validate_token` (`ExpiredSignature ↦ TokenExpired`, the issuer /
audience mismatches ↦ `InvalidToken`). -/
def decode_token (c : Claims) (now : Int) : Except AuthError Claims :=
  if c.exp < now - 60 then .error .TokenExpired
  else if c.iss ≠ "fsfvi-kenya-backend" then .error .InvalidToken
  else if c.aud ≠ "kenya-government" then .error .InvalidToken
  else .ok c

/-- `TokenService::validate_claims`: a second expiry check against
`Utc::now()` with NO leeway, then the role check. -/
def validate_claims (c : Claims) (now : Int) : Except AuthError Unit :=
  if c.exp < now then .error .TokenExpired
  else if c.role = "kenya_government" then .ok ()
  else .error .Unauthorized

/-- `TokenService::validate_token`: decode (with leeway), then
`validate_claims`, then assemble the `TokenValidation`. -/
def validate_token (c : Claims) (now : Int) : Except AuthError TokenValidation :=
  match decode_token c now with
  | .error e => .error e
  | .ok claims =>
    match validate_claims claims now with
    | .error e => .error e
    | .ok _ =>
      .ok { user_id := claims.sub
            username := claims.username
            role := claims.role
            session_id := claims.session_id
            is_temp_password := claims.is_temp_password
            expires_at := claims.exp }

/-!  `AuthService` (`src/services/auth_service.rs`).  Each operation receives
the fetched `User` record and returns the persisted record plus the
security-event (audit) rows and login-attempt rows inserted on that path. -/

/-- `UserResponse` from `src/models/user.rs` (sensitive fields excluded). -/
structure UserResponse where
  id : Nat
  username : String
  is_temporary_password : Bool
  last_login : Option Int
  login_attempts : Int
  is_locked : Bool
  lockout_expiry : Option Int
  two_fa_enabled : Bool
  two_fa_enabled_at : Option Int
deriving DecidableEq, Repr

/-- `UserResponse::from(User)`. -/
def UserResponse.ofUser (u : User) : UserResponse :=
  { id := u.id
    username := u.username
    is_temporary_password := u.is_temporary_password
    last_login := u.last_login
    login_attempts := u.login_attempts
    is_locked := u.is_locked
    lockout_expiry := u.lockout_expiry
    two_fa_enabled := u.two_fa_enabled
    two_fa_enabled_at := u.two_fa_enabled_at }

/-- `LoginRequest` from `src/models/user.rs`. -/
structure LoginRequest where
  username : String
  password : String
  user_agent : Option String
  two_fa_code : Option String
deriving DecidableEq, Repr

/-- `LoginResponse` from `src/models/user.rs`; `token = none` models the
empty token string returned while the second factor is pending. -/
structure LoginResponse where
  token : Option Claims
  user : UserResponse
  expires_in : Int
  requires_two_fa : Bool
  two_fa_temp_token : Option String
deriving DecidableEq, Repr

deriving instance DecidableEq for Except

/-- One row of the `security_events` table (an audit record written through
`AuditService::log_security_event`; `login_attempts`-table rows are counted
separately, they are not audit records). -/
structure AuditEvent where
  event_type : String
  success : Bool
deriving DecidableEq, Repr

/-- Result of `AuthService::authenticate`: caller-visible result, the `User`
record as persisted, the audit rows and the `login_attempts` rows inserted. -/
structure AuthOutcome where
  result : Except AuthError LoginResponse
  user : User
  audit_events : List AuditEvent
  login_attempt_rows : List Bool
deriving DecidableEq, Repr

/-- Ambient inputs of one `authenticate` call: the config, the abstract
HMAC step function of `totp_lite` keyed by the stored secret, the single
`Utc::now()` instant of the call (the handful of `Utc::now()` calls inside
one request are the same instant in the model), and the freshly generated
session id / JWT id / 2FA temp token. -/
structure AuthCtx where
  cfg : SecurityConfig
  stepFn : String → Nat → Nat
  now : Int
  session_id : String
  jti : String
  temp_token : String

/-- Value of a 6-digit ASCII code string (`format!("\x7b:06\x7d", code)`
comparison on 6-digit strings is equality of these values). -/
def digitsVal (s : List Char) : Nat :=
  s.foldl (fun acc c => acc * 10 + (c.toNat - '0'.toNat)) 0

/-- `AuthService::complete_login`: mint the JWT, insert one successful
`login_attempts` row and one successful `LOGIN_ATTEMPT` audit row, answer
with `expires_in = 28800` (the hard-coded 8 hours in seconds). -/
def complete_login (ctx : AuthCtx) (user : User) (session_id : String) : AuthOutcome :=
  let token := generate_token ctx.cfg user session_id ctx.now ctx.jti
  { result := .ok
      { token := some token
        user := UserResponse.ofUser user
        expires_in := 28800
        requires_two_fa := false
        two_fa_temp_token := none }
    user := user
    audit_events := [⟨"LOGIN_ATTEMPT", true⟩]
    login_attempt_rows := [true] }

/-- `AuthService::authenticate` on the fetched record `user0`
(`check_rate_limit` is a stub that always permits; the username lookup is
abstracted to the fetched record itself; DB writes never fail; a stored 2FA
secret is base64-decodable as `generate_secret` produces it). -/
def authenticate (ctx : AuthCtx) (user0 : User) (request : LoginRequest) : AuthOutcome :=
  if user0.is_locked && (match user0.lockout_expiry with
      | some exp => decide (ctx.now < exp)
      | none => false) then
    { result := .error .AccountLocked, user := user0
      audit_events := [], login_attempt_rows := [] }
  else
    match verify_password request.password.toList user0.password_hash with
    | .error e =>
      { result := .error e, user := user0
        audit_events := [], login_attempt_rows := [] }
    | .ok false =>
      let u1 : User := { user0 with login_attempts := user0.login_attempts + 1 }
      let u2 : User :=
        if u1.login_attempts ≥ 5 then
          { u1 with is_locked := true, lockout_expiry := some (ctx.now + 300) }
        else u1
      { result := .error .InvalidCredentials, user := u2
        audit_events := [⟨"LOGIN_ATTEMPT", false⟩], login_attempt_rows := [false] }
    | .ok true =>
      let u1 : User := { user0 with
        login_attempts := 0
        is_locked := false
        lockout_expiry := none
        last_login := some ctx.now
        session_token := some ctx.session_id
        session_expires_at := some (ctx.now + 1800) }
      if u1.two_fa_enabled then
        match request.two_fa_code with
        | some code =>
          let codeChars := code.toList
          if codeChars.length == 6 && codeChars.all (fun c => c.isDigit) then
            match u1.two_fa_secret with
            | some secret =>
              if verify_totp (ctx.stepFn secret) (digitsVal codeChars) ctx.now.toNat then
                complete_login ctx u1 ctx.session_id
              else
                { result := .error .InvalidCredentials, user := u1
                  audit_events := [], login_attempt_rows := [false] }
            | none =>
              { result := .error .InvalidCredentials, user := u1
                audit_events := [], login_attempt_rows := [false] }
          else if codeChars.length == 8 && codeChars.all (fun c => c.isAlphanum) then
            match u1.two_fa_backup_codes with
            | some codes =>
              let vb := verify_backup_code codes code
              if vb.1 then
                complete_login ctx { u1 with two_fa_backup_codes := some vb.2 } ctx.session_id
              else
                { result := .error .InvalidCredentials, user := u1
                  audit_events := [], login_attempt_rows := [false] }
            | none =>
              { result := .error .InvalidCredentials, user := u1
                audit_events := [], login_attempt_rows := [false] }
          else
            { result := .error .InvalidCredentials, user := u1
              audit_events := [], login_attempt_rows := [false] }
        | none =>
          { result := .ok
              { token := none
                user := UserResponse.ofUser u1
                expires_in := 0
                requires_two_fa := true
                two_fa_temp_token := some ctx.temp_token }
            user := u1, audit_events := [], login_attempt_rows := [] }
      else
        complete_login ctx u1 ctx.session_id

/-- `AuthService::validate_session`: JWT validation, then the live-session
cross-check on the re-fetched user record. -/
def validate_session (user : User) (c : Claims) (now : Int) :
    Except AuthError UserResponse :=
  match validate_token c now with
  | .error e => .error e
  | .ok tv =>
    match user.session_token, user.session_expires_at with
    | some session_token, some session_expires_at =>
      if session_token = tv.session_id ∧ now < session_expires_at then
        .ok (UserResponse.ofUser user)
      else .error .SessionExpired
    | _, _ => .error .SessionExpired

/-- `AuthService::logout`: clear the session fields unconditionally and write
one `LOGOUT` audit row. -/
def logout (user : User) : User × List AuditEvent :=
  ({ user with session_token := none, session_expires_at := none },
   [⟨"LOGOUT", true⟩])

/-- `ChangePasswordRequest` from `src/models/user.rs`. -/
structure ChangePasswordRequest where
  current_password : String
  new_password : String
  confirm_password : String
deriving DecidableEq, Repr

/-- Result of `AuthService::change_password`. -/
structure ChangeOutcome where
  result : Except AuthError Unit
  user : User
  audit_events : List AuditEvent
deriving DecidableEq, Repr

/-- `AuthService::change_password` on the fetched record, in the exact check
order of the source: (1) `new != confirm` → `PasswordMismatch`;
(2) verify the current password (an `Err` from verification propagates, a
clean mismatch is `InvalidCredentials`); (3) strength of the new password →
`PasswordTooWeak`; (4) `passwords_are_same` → the distinct
`InternalError("New password must be different …")`; then hash, persist
(clearing the temporary flag) and write one successful `PASSWORD_CHANGE`
audit row.  No failure path writes an audit row. -/
def change_password (policy : PasswordPolicy) (user : User)
    (request : ChangePasswordRequest) (now : Int) : ChangeOutcome :=
  if request.new_password ≠ request.confirm_password then
    ⟨.error .PasswordMismatch, user, []⟩
  else
    match verify_password request.current_password.toList user.password_hash with
    | .error e => ⟨.error e, user, []⟩
    | .ok false => ⟨.error .InvalidCredentials, user, []⟩
    | .ok true =>
      match validate_password_strength policy request.new_password.toList with
      | .error e => ⟨.error e, user, []⟩
      | .ok _ =>
        if passwords_are_same request.new_password.toList user.password_hash then
          ⟨.error (.InternalError "New password must be different from current password"),
           user, []⟩
        else
          match hash_password policy request.new_password.toList with
          | .error e => ⟨.error e, user, []⟩
          | .ok h =>
            ⟨.ok (),
             { user with
               password_hash := h
               is_temporary_password := false
               password_changed_at := some now },
             [⟨"PASSWORD_CHANGE", true⟩]⟩

/-!  Concrete fixtures used by the closed evaluations and witnesses. -/

/-- A deployment-shaped user record: Argon2 digest (as `hash_password`
produces), no lockout, no 2FA.  The stored password `Str0ng&Secure` passes
the default strength policy. -/
def baseUser : User :=
  { id := 1
    username := "kenya_government"
    password_hash := .argon2 "Str0ng&Secure"
    is_temporary_password := false
    last_login := none
    login_attempts := 0
    is_locked := false
    lockout_expiry := none
    password_changed_at := none
    session_token := none
    session_expires_at := none
    two_fa_enabled := false
    two_fa_secret := none
    two_fa_backup_codes := none
    two_fa_enabled_at := none }

/-- The same user with a bcrypt-format digest (the migration format
`verify_password` also supports). -/
def bcryptUser : User := { baseUser with password_hash := .bcrypt "Str0ng&Secure" }

/-- A locked user whose lockout expiry is still in the future at
`baseCtx.now = 1000000`. -/
def lockedUser : User :=
  { baseUser with is_locked := true, lockout_expiry := some 2000000 }

/-- Ambient context of the concrete calls: default config, zero HMAC core,
`Utc::now()` = 1000000. -/
def baseCtx : AuthCtx :=
  { cfg := defaultSecurityConfig
    stepFn := fun _ _ => 0
    now := 1000000
    session_id := "sess-1"
    jti := "jti-1"
    temp_token := "2fa_temp_00000000-0000-0000-0000-000000000000" }

/-- A login request carrying the wrong password. -/
def wrongLoginReq : LoginRequest :=
  { username := "kenya_government"
    password := "wrong"
    user_agent := none
    two_fa_code := none }

/-- A login request carrying the correct password of `baseUser`. -/
def correctLoginReq : LoginRequest :=
  { username := "kenya_government"
    password := "Str0ng&Secure"
    user_agent := none
    two_fa_code := none }

/-- An issued-shaped claims record with expiry 1000 (for the leeway
counterexample). -/
def c4Claims : Claims :=
  { sub := 1
    username := "kenya_government"
    role := "kenya_government"
    exp := 1000
    iat := 0
    iss := "fsfvi-kenya-backend"
    aud := "kenya-government"
    jti := "jti-1"
    session_id := "sess-1"
    is_temp_password := false }

/-- An RNG outcome of `generate_temporary_password`: the four class picks
give `A a 0 !`, the fill picks the alphabet positions 53, 54, 55 (the digits
`1 2 3`) then position 0 (`A`) five times, and every shuffle draw returns its
own loop index, so each swap is the identity.  The resulting password is
`Aa0!123AAAAA`. -/
def c9Rand : Nat → Nat := fun n =>
  [0, 0, 0, 0, 53, 54, 55, 0, 0, 0, 0, 0,
   0, 1, 2, 3, 4, 5, 6, 7, 8, 9, 10, 11].getD n 0

/-- A password-change request whose new password EQUALS the current stored
password of `baseUser` while the confirmation differs. -/
def sameNewPasswordReq : ChangePasswordRequest :=
  { current_password := "Str0ng&Secure"
    new_password := "Str0ng&Secure"
    confirm_password := "different" }

/-- A password-change request with mismatching confirmation only. -/
def mismatchReq : ChangePasswordRequest :=
  { current_password := "Str0ng&Secure"
    new_password := "N3w&Secure_pw"
    confirm_password := "N3w&Secure_pw2" }

/-- A user whose stored digest hashes a weak password (possible for records
created before the policy tightened). -/
def weakHashUser : User := { baseUser with password_hash := .argon2 "weak" }

/-- A user with a live session `sess-1` expiring at 1003000. -/
def sessionUser : User :=
  { baseUser with session_token := some "sess-1", session_expires_at := some 1003000 }

/-- The claims of a token issued for `sessionUser`'s session, expiring well
after the live session. -/
def sessionClaims : Claims :=
  { sub := 1
    username := "kenya_government"
    role := "kenya_government"
    exp := 1028800
    iat := 1000000
    iss := "fsfvi-kenya-backend"
    aud := "kenya-government"
    jti := "jti-1"
    session_id := "sess-1"
    is_temp_password := false }

/-- A stored backup-code set (distinct codes, as `generate_backup_codes`
draws them). -/
def backupCodesFix : List String := ["AAAA1111", "BBBB2222", "CCCC3333"]

/-- A change request setting the weak stored password again (weak strength
AND same-as-current simultaneously). -/
def weakChangeReq : ChangePasswordRequest :=
  { current_password := "weak", new_password := "weak", confirm_password := "weak" }

/-- A change request with a WRONG current password whose new password is the
weak stored password again (wrong current AND weak strength AND
same-as-current simultaneously). -/
def wrongCurrentReq : ChangePasswordRequest :=
  { current_password := "badpass", new_password := "weak", confirm_password := "weak" }

/-- A change request setting the strong stored password again (confirmation
matching). -/
def sameAllReq : ChangePasswordRequest :=
  { current_password := "Str0ng&Secure"
    new_password := "Str0ng&Secure"
    confirm_password := "Str0ng&Secure" }

/-!  Claim theorems. -/

/-- Claim C1 (code bug): a failed password verification is supposed to
increment the failed-attempt counter and, at the threshold, lock the
account; but for a user whose stored digest is the Argon2 format that
`hash_password` always produces, a wrong password makes
`verify_password` return `Err(InvalidCredentials)` (the bcrypt fallback
cannot parse an Argon2 digest), which `authenticate` propagates with `?`
BEFORE the counting/lockout block: the attempt counter stays at 0, no lockout
ever occurs.  For contrast, the bcrypt-digest path (where verification
returns `Ok(false)`) does increment the counter as the claim describes. -/
theorem C1_argon2_failed_login_never_counted :
    (authenticate baseCtx baseUser wrongLoginReq).result =
      .error .InvalidCredentials ∧
    (authenticate baseCtx baseUser wrongLoginReq).user = baseUser ∧
    (authenticate baseCtx baseUser wrongLoginReq).user.login_attempts = 0 ∧
    (authenticate baseCtx bcryptUser wrongLoginReq).user.login_attempts = 1 := by
  refine ⟨rfl, rfl, rfl, rfl⟩

/-- Claim C2 (code bug): for a policy-satisfying password `p`,
`verify(p, hash(p))` is `Ok(true)`, but for `p' ≠ p` the verification does
NOT return the boolean `Ok(false)` the claim (and the source's own unit test
`test_password_hashing`) expects: the Argon2 mismatch falls through to
`bcrypt::verify`, which fails to parse the Argon2 digest, and the function
returns `Err(InvalidCredentials)`. -/
theorem C2_verify_wrong_password_errors_instead_of_false :
    hash_password defaultPolicy "Str0ng&Secure".toList =
      .ok (.argon2 "Str0ng&Secure") ∧
    verify_password "Str0ng&Secure".toList (.argon2 "Str0ng&Secure") = .ok true ∧
    verify_password "wrong".toList (.argon2 "Str0ng&Secure") =
      .error .InvalidCredentials := by
  refine ⟨rfl, rfl, rfl⟩

/-- Claim C4 counterexample: a token with expiry 1000 checked at time 1001 —
one second past expiry, well within the 60-second leeway — already fails with
`TokenExpired`, because `validate_claims` re-checks `exp < now` with no
leeway after the leeway-respecting decode. -/
theorem C4_counterexample_leeway_not_honoured :
    validate_token c4Claims 1001 = .error .TokenExpired := by
  rfl

/-- Claim C5 counterexample: a change-password request whose new password
equals the current password (the claim's highest-priority rejection,
expecting the distinct same-password error) while the confirmation differs is
answered with `PasswordMismatch`: the source checks `new != confirm` first,
not `new == current`. -/
theorem C5_counterexample_mismatch_beats_same_password :
    (change_password defaultPolicy baseUser sameNewPasswordReq 0).result =
      .error .PasswordMismatch ∧
    (change_password defaultPolicy baseUser sameNewPasswordReq 0).result ≠
      .error (.InternalError "New password must be different from current password") := by
  refine ⟨rfl, by decide⟩

/-- Claim C8 (code bug): several security-relevant failure paths return
without writing any audit record: the `AccountLocked` rejection writes none,
and a password-change confirmation mismatch (as every other password-change
failure) writes none; only the wrong-password login path writes its one
`LOGIN_ATTEMPT` record. -/
theorem C8_failure_paths_without_audit_record :
    (authenticate baseCtx lockedUser correctLoginReq).result =
      .error .AccountLocked ∧
    (authenticate baseCtx lockedUser correctLoginReq).audit_events = [] ∧
    (change_password defaultPolicy baseUser mismatchReq 0).result =
      .error .PasswordMismatch ∧
    (change_password defaultPolicy baseUser mismatchReq 0).audit_events = [] ∧
    (authenticate baseCtx bcryptUser wrongLoginReq).audit_events =
      [⟨"LOGIN_ATTEMPT", false⟩] := by
  refine ⟨rfl, rfl, rfl, rfl, rfl⟩

/-- Claim C9 counterexample: the RNG outcome `c9Rand` makes
`generate_temporary_password` produce `Aa0!123AAAAA`, which fails
`validate_password_strength` (forbidden substring `123` and a run of five
repeated characters), refuting "passes `validate_strength` for every outcome
of the random generator". -/
theorem C9_counterexample_generated_password_too_weak :
    generate_temporary_password defaultPolicy c9Rand = "Aa0!123AAAAA".toList ∧
    validate_password_strength defaultPolicy
      (generate_temporary_password defaultPolicy c9Rand) =
      .error .PasswordTooWeak := by
  refine ⟨rfl, rfl⟩

/-- A code absent from the stored list has no position. -/
theorem positionOf_eq_none_of_not_mem {c : String} :
    ∀ {l : List String}, c ∉ l → positionOf l c = none := by
  intro l
  induction l with
  | nil => intro _; rfl
  | cons a t ih =>
    intro h
    have h1 : ¬(a = c) := fun hac => h (hac ▸ List.mem_cons_self a t)
    have h2 : c ∉ t := fun hct => h (List.mem_cons_of_mem a hct)
    simp only [positionOf, if_neg h1, ih h2, Option.map_none']

/-- Verifying an absent code reports no match and returns the list
unchanged. -/
theorem verify_backup_code_of_not_mem {l : List String} {c : String} (h : c ∉ l) :
    verify_backup_code l c = (false, l) := by
  unfold verify_backup_code
  rw [positionOf_eq_none_of_not_mem h]

/-- On a duplicate-free stored list, the matched position exists and erasing
it removes the code entirely. -/
theorem positionOf_spec {c : String} :
    ∀ {l : List String}, c ∈ l → l.Nodup →
      ∃ i, positionOf l c = some i ∧ c ∉ l.eraseIdx i := by
  intro l
  induction l with
  | nil => intro h; cases h
  | cons a t ih =>
    intro hmem hnd
    by_cases hac : a = c
    · refine ⟨0, by simp [positionOf, hac], ?_⟩
      subst hac
      simpa [List.eraseIdx] using (List.nodup_cons.mp hnd).1
    · have hct : c ∈ t := by
        cases List.mem_cons.mp hmem with
        | inl h => exact absurd h.symm hac
        | inr h => exact h
      obtain ⟨i, hpos, hno⟩ := ih hct (List.nodup_cons.mp hnd).2
      refine ⟨i + 1, by simp [positionOf, hac, hpos], ?_⟩
      simp only [List.eraseIdx, List.mem_cons]
      intro hc
      cases hc with
      | inl h => exact hac h.symm
      | inr h => exact hno h

/-- Claim C6 (confirmed): on a stored set of backup codes (duplicate-free,
as a set), the first verification of a member code reports a match and
removes exactly that code; a second verification of the same code against
the updated set reports no match and leaves the set unchanged — a backup
code never validates twice. -/
theorem C6_backup_code_verifies_exactly_once (codes : List String) (c : String)
    (hmem : c ∈ codes) (hnd : codes.Nodup) :
    (verify_backup_code codes c).1 = true ∧
    c ∉ (verify_backup_code codes c).2 ∧
    verify_backup_code (verify_backup_code codes c).2 c =
      (false, (verify_backup_code codes c).2) := by
  obtain ⟨i, hpos, hno⟩ := positionOf_spec hmem hnd
  have h1 : verify_backup_code codes c = (true, codes.eraseIdx i) := by
    unfold verify_backup_code
    rw [hpos]
  rw [h1]
  exact ⟨rfl, hno, verify_backup_code_of_not_mem hno⟩

/-- Claim C6 witness: the middle code of the concrete stored set verifies
once and not twice. -/
theorem C6_witness :
    ("BBBB2222" ∈ backupCodesFix ∧ backupCodesFix.Nodup) ∧
    ((verify_backup_code backupCodesFix "BBBB2222").1 = true ∧
     "BBBB2222" ∉ (verify_backup_code backupCodesFix "BBBB2222").2 ∧
     verify_backup_code (verify_backup_code backupCodesFix "BBBB2222").2 "BBBB2222" =
       (false, (verify_backup_code backupCodesFix "BBBB2222").2)) :=
  ⟨⟨by decide, by decide⟩,
   C6_backup_code_verifies_exactly_once backupCodesFix "BBBB2222" (by decide) (by decide)⟩

/-- Claim C7 (confirmed): a 6-digit code generated for time `T` verifies
when the verifier's clock reads `T`, `T - 30` or `T + 30`, and fails at
`T - 90` and `T + 90`: `verify_totp` checks exactly the three 30-second
windows around the verifier clock.  The non-verification half holds under
the no-collision hypothesis `hne` on the abstract HMAC core (distinct
truncated codes at the six steps two-to-four windows away — on the real
SHA-1 HMAC a collision is possible only with probability ≈ 10⁻⁶ per
window). -/
theorem C7_totp_verifies_in_adjacent_windows_only (stepFn : Nat → Nat) (T : Nat)
    (hT : 120 ≤ T)
    (hne : ∀ d : Nat, 2 ≤ d → d ≤ 4 →
      stepFn (T / 30 - d) % 1000000 ≠ stepFn (T / 30) % 1000000 ∧
      stepFn (T / 30 + d) % 1000000 ≠ stepFn (T / 30) % 1000000) :
    verify_totp stepFn (generate_totp stepFn T) T = true ∧
    verify_totp stepFn (generate_totp stepFn T) (T - 30) = true ∧
    verify_totp stepFn (generate_totp stepFn T) (T + 30) = true ∧
    verify_totp stepFn (generate_totp stepFn T) (T - 90) = false ∧
    verify_totp stepFn (generate_totp stepFn T) (T + 90) = false := by
  refine ⟨?_, ?_, ?_, ?_, ?_⟩
  · simp [verify_totp, generate_totp]
  · have h : T - 30 + 30 = T := by omega
    simp [verify_totp, generate_totp, h]
  · have h : T + 30 - 30 = T := by omega
    simp [verify_totp, generate_totp, h]
  · have h1 : T - 90 - 30 = T - 120 := by omega
    have e1 : (T - 120) / 30 = T / 30 - 4 := by omega
    have e2 : (T - 90) / 30 = T / 30 - 3 := by omega
    have e3 : (T - 90 + 30) / 30 = T / 30 - 2 := by omega
    simp only [verify_totp, generate_totp, totp, h1, e1, e2, e3,
      Bool.or_eq_false_iff, decide_eq_false_iff_not]
    exact ⟨⟨(hne 4 (by omega) (by omega)).1, (hne 3 (by omega) (by omega)).1⟩,
           (hne 2 (by omega) (by omega)).1⟩
  · have e1 : (T + 90 - 30) / 30 = T / 30 + 2 := by omega
    have e2 : (T + 90) / 30 = T / 30 + 3 := by omega
    have e3 : (T + 90 + 30) / 30 = T / 30 + 4 := by omega
    simp only [verify_totp, generate_totp, totp, e1, e2, e3,
      Bool.or_eq_false_iff, decide_eq_false_iff_not]
    exact ⟨⟨(hne 2 (by omega) (by omega)).2, (hne 3 (by omega) (by omega)).2⟩,
           (hne 4 (by omega) (by omega)).2⟩

/-- Claim C7 witness: the identity step function at `T = 3000` (step 100)
collides with none of the six neighbouring steps. -/
theorem C7_witness :
    verify_totp (fun n => n) (generate_totp (fun n => n) 3000) 3000 = true ∧
    verify_totp (fun n => n) (generate_totp (fun n => n) 3000) (3000 - 30) = true ∧
    verify_totp (fun n => n) (generate_totp (fun n => n) 3000) (3000 + 30) = true ∧
    verify_totp (fun n => n) (generate_totp (fun n => n) 3000) (3000 - 90) = false ∧
    verify_totp (fun n => n) (generate_totp (fun n => n) 3000) (3000 + 90) = false :=
  C7_totp_verifies_in_adjacent_windows_only (fun n => n) 3000 (by omega)
    (by
      intro d h2 h4
      refine ⟨?_, ?_⟩ <;> · simp only [] ; omega)

/-- Claim C3 (confirmed): for a token issued at login (correct issuer,
audience, role) whose embedded expiry has not elapsed, session validation
against the logged-out user record fails with `SessionExpired`; and in
general session validation succeeds only when the token's embedded session
id equals the user's current live session token and the live session expiry
is still in the future. -/
theorem C3_logout_invalidates_session (user : User) (c : Claims) (now : Int)
    (hiss : c.iss = "fsfvi-kenya-backend")
    (haud : c.aud = "kenya-government")
    (hrole : c.role = "kenya_government")
    (hexp : now ≤ c.exp) :
    validate_session (logout user).1 c now = .error .SessionExpired ∧
    (∀ (u : User) (r : UserResponse), validate_session u c now = .ok r →
      u.session_token = some c.session_id ∧
      ∃ e, u.session_expires_at = some e ∧ now < e) := by
  have h1 : ¬ (c.exp < now - 60) := by omega
  have h2 : ¬ (c.exp < now) := by omega
  have hv : validate_token c now = .ok
      { user_id := c.sub, username := c.username, role := c.role,
        session_id := c.session_id, is_temp_password := c.is_temp_password,
        expires_at := c.exp } := by
    simp [validate_token, decode_token, validate_claims, h1, h2, hiss, haud, hrole]
  constructor
  · unfold validate_session
    rw [hv]
    simp [logout]
  · intro u r h
    simp only [validate_session, hv] at h
    cases hst : u.session_token with
    | none => rw [hst] at h; cases h
    | some st =>
      cases hse : u.session_expires_at with
      | none => rw [hst, hse] at h; cases h
      | some se =>
        rw [hst, hse] at h
        simp only [] at h
        by_cases hcond : st = c.session_id ∧ now < se
        · exact ⟨by rw [hcond.1], se, rfl, hcond.2⟩
        · rw [if_neg hcond] at h
          cases h

/-- Claim C3 witness: the concrete session token of `sessionUser` is
rejected with `SessionExpired` after logout at a time well inside its
embedded validity. -/
theorem C3_witness :
    validate_session (logout sessionUser).1 sessionClaims 1000500 =
      .error .SessionExpired ∧
    sessionUser.session_token = some sessionClaims.session_id :=
  ⟨(C3_logout_invalidates_session sessionUser sessionClaims 1000500
      rfl rfl rfl (by decide)).1,
   ((C3_logout_invalidates_session sessionUser sessionClaims 1000500
      rfl rfl rfl (by decide)).2 sessionUser
      (UserResponse.ofUser sessionUser) (by decide)).1⟩

/-- Claim C4 amended (corrected): for an issued token (correct issuer,
audience, role), verification fails with `TokenExpired` EXACTLY when the
current time exceeds the embedded expiry at all — the 60-second decode
leeway is nullified by the second, leeway-free expiry check in
`validate_claims`, so even one second past expiry (inside the leeway) fails. -/
theorem C4_amended_no_effective_leeway (c : Claims) (now : Int)
    (hiss : c.iss = "fsfvi-kenya-backend")
    (haud : c.aud = "kenya-government")
    (hrole : c.role = "kenya_government") :
    (validate_token c now = .error .TokenExpired) ↔ c.exp < now := by
  unfold validate_token decode_token validate_claims
  by_cases h1 : c.exp < now - 60
  · rw [if_pos h1]
    simp only [true_iff]
    omega
  · rw [if_neg h1, if_neg (by simp [hiss]), if_neg (by simp [haud])]
    by_cases h2 : c.exp < now
    · simp [h2]
    · simp [h2, hrole]

/-- Claim C4 witness: the concrete token expiring at 1000, checked at 1001. -/
theorem C4_amended_witness :
    (validate_token c4Claims 1001 = .error .TokenExpired) ↔ c4Claims.exp < 1001 :=
  C4_amended_no_effective_leeway c4Claims 1001 rfl rfl rfl

/-- Claim C5 amended (corrected): the password-change rejections are checked
in the source order `new != confirm` (`PasswordMismatch`), then wrong
current password (`InvalidCredentials`), then strength (`PasswordTooWeak`),
then `new == current` (the distinct `InternalError`); whenever several
conditions hold, the error earlier in THIS order is returned — a
confirmation mismatch wins over everything, a wrong current password
(whether verification reports `Ok(false)` or propagates its
`Err(InvalidCredentials)`) wins over strength and same-as-current, and a
strength violation wins over same-as-current. -/
theorem C5_amended_source_check_order (policy : PasswordPolicy) (user : User)
    (req : ChangePasswordRequest) (now : Int) :
    (req.new_password ≠ req.confirm_password →
      (change_password policy user req now).result = .error .PasswordMismatch) ∧
    (req.new_password = req.confirm_password →
      (verify_password req.current_password.toList user.password_hash = .ok false ∨
       verify_password req.current_password.toList user.password_hash =
         .error .InvalidCredentials) →
      validate_password_strength policy req.new_password.toList = .error .PasswordTooWeak →
      passwords_are_same req.new_password.toList user.password_hash = true →
      (change_password policy user req now).result = .error .InvalidCredentials) ∧
    (req.new_password = req.confirm_password →
      verify_password req.current_password.toList user.password_hash = .ok true →
      validate_password_strength policy req.new_password.toList = .error .PasswordTooWeak →
      passwords_are_same req.new_password.toList user.password_hash = true →
      (change_password policy user req now).result = .error .PasswordTooWeak) ∧
    (req.new_password = req.confirm_password →
      verify_password req.current_password.toList user.password_hash = .ok true →
      validate_password_strength policy req.new_password.toList = .ok () →
      passwords_are_same req.new_password.toList user.password_hash = true →
      (change_password policy user req now).result =
        .error (.InternalError "New password must be different from current password")) := by
  refine ⟨?_, ?_, ?_, ?_⟩
  · intro h
    unfold change_password
    rw [if_pos h]
  · intro he hv hw hs
    cases hv with
    | inl h =>
      simp only [change_password,
        if_neg (show ¬(req.new_password ≠ req.confirm_password) from fun hne => hne he),
        h]
    | inr h =>
      simp only [change_password,
        if_neg (show ¬(req.new_password ≠ req.confirm_password) from fun hne => hne he),
        h]
  · intro he hv hw hs
    simp only [change_password,
      if_neg (show ¬(req.new_password ≠ req.confirm_password) from fun hne => hne he),
      hv, hw]
  · intro he hv hw hs
    simp only [change_password,
      if_neg (show ¬(req.new_password ≠ req.confirm_password) from fun hne => hne he),
      hv, hw, hs, if_true]

/-- Claim C5 witness: concrete requests exercising all four priorities
(mismatch alone; wrong current password while the new password is weak AND
equals the stored one → `InvalidCredentials`; weak AND same-as-current with
the right current password → `PasswordTooWeak`; strong and same-as-current
→ the distinct internal error). -/
theorem C5_amended_witness :
    (change_password defaultPolicy baseUser mismatchReq 0).result =
      .error .PasswordMismatch ∧
    (change_password defaultPolicy weakHashUser wrongCurrentReq 0).result =
      .error .InvalidCredentials ∧
    (change_password defaultPolicy weakHashUser weakChangeReq 0).result =
      .error .PasswordTooWeak ∧
    (change_password defaultPolicy baseUser sameAllReq 0).result =
      .error (.InternalError "New password must be different from current password") :=
  ⟨(C5_amended_source_check_order defaultPolicy baseUser mismatchReq 0).1 (by decide),
   (C5_amended_source_check_order defaultPolicy weakHashUser wrongCurrentReq 0).2.1
     rfl (Or.inr (by decide)) (by decide) (by decide),
   (C5_amended_source_check_order defaultPolicy weakHashUser weakChangeReq 0).2.2.1
     rfl rfl (by decide) (by decide),
   (C5_amended_source_check_order defaultPolicy baseUser sameAllReq 0).2.2.2
     rfl rfl (by decide) (by decide)⟩

/-- Claim C10 (confirmed): a successful credential verification (2FA
disabled) persists a live-session expiry exactly 30 minutes (1800 s) after
login time, while the issued token embeds an expiry 8 hours (28800 s) ahead
and the response reports `expires_in = 28800`; consequently at any time in
between — 30 minutes elapsed but the token still structurally valid —
session validation fails with `SessionExpired` although token verification
alone succeeds. -/
theorem C10_session_expiry_shorter_than_token (ctx : AuthCtx) (user : User)
    (req : LoginRequest) (now2 : Int)
    (hcfg : ctx.cfg = defaultSecurityConfig)
    (hlock : user.is_locked = false)
    (h2fa : user.two_fa_enabled = false)
    (hpw : verify_password req.password.toList user.password_hash = .ok true)
    (hs : ctx.now + 1800 ≤ now2)
    (he : now2 ≤ ctx.now + 28800) :
    (authenticate ctx user req).user.session_expires_at = some (ctx.now + 1800) ∧
    (∃ resp, (authenticate ctx user req).result = .ok resp ∧
      resp.expires_in = 28800 ∧
      ∃ tok, resp.token = some tok ∧
        tok.exp = ctx.now + 28800 ∧
        (∃ tv, validate_token tok now2 = .ok tv) ∧
        validate_session (authenticate ctx user req).user tok now2 =
          .error .SessionExpired) := by
  have hauth : authenticate ctx user req = complete_login ctx
      { user with login_attempts := 0, is_locked := false, lockout_expiry := none, last_login := some ctx.now, session_token := some ctx.session_id, session_expires_at := some (ctx.now + 1800) } ctx.session_id := by
    simp only [authenticate, hlock, hpw, h2fa, Bool.false_and]
    simp
  set u1 : User := { user with login_attempts := 0, is_locked := false, lockout_expiry := none, last_login := some ctx.now, session_token := some ctx.session_id, session_expires_at := some (ctx.now + 1800) } with hu1
  set tok : Claims := generate_token ctx.cfg u1 ctx.session_id ctx.now ctx.jti with htok
  have hA : tok.exp = ctx.now + 28800 := by
    rw [htok]
    simp [generate_token, hcfg, defaultSecurityConfig]
  have h1 : ¬(tok.exp < now2 - 60) := by rw [hA]; omega
  have h2 : ¬(tok.exp < now2) := by rw [hA]; omega
  have hB : validate_token tok now2 = .ok
      { user_id := tok.sub, username := tok.username, role := tok.role,
        session_id := tok.session_id, is_temp_password := tok.is_temp_password,
        expires_at := tok.exp } := by
    have hiss : tok.iss = "fsfvi-kenya-backend" := by rw [htok]; rfl
    have haud : tok.aud = "kenya-government" := by rw [htok]; rfl
    have hrole : tok.role = "kenya_government" := by rw [htok]; rfl
    simp [validate_token, decode_token, validate_claims, h1, h2, hiss, haud, hrole]
  have hC : validate_session u1 tok now2 = .error .SessionExpired := by
    unfold validate_session
    rw [hB]
    have hst : u1.session_token = some ctx.session_id := by rw [hu1]
    have hse : u1.session_expires_at = some (ctx.now + 1800) := by rw [hu1]
    rw [hst, hse]
    simp only []
    rw [if_neg]
    intro hcond
    omega
  rw [hauth]
  exact ⟨rfl, _, rfl, rfl, tok, rfl, hA, ⟨_, hB⟩, hC⟩

/-- Claim C10 witness: the concrete login at time 1000000 checked at
1001800 (exactly 30 minutes later). -/
theorem C10_witness :
    (authenticate baseCtx baseUser correctLoginReq).user.session_expires_at =
      some (baseCtx.now + 1800) :=
  (C10_session_expiry_shorter_than_token baseCtx baseUser correctLoginReq 1001800
    rfl rfl rfl rfl (by decide) (by decide)).1

/-- `Vec::swap` preserves the length. -/
theorem length_swapAt (l : List Char) (i j : Nat) : (swapAt l i j).length = l.length := by
  unfold swapAt
  split
  · simp
  · rfl

/-- The shuffle loop preserves the length. -/
theorem length_shuffleAux (rand : Nat → Nat) (base : Nat) :
    ∀ (fuel i : Nat) (chars : List Char),
      (shuffleAux rand base fuel i chars).length = chars.length := by
  intro fuel
  induction fuel with
  | zero => intro i chars; rfl
  | succ n ih =>
    intro i chars
    simp only [shuffleAux]
    rw [ih, length_swapAt]

/-- The random fill produces exactly the requested number of characters. -/
theorem length_tempFill (rand : Nat → Nat) :
    ∀ (k start : Nat), (tempFill rand k start).length = k := by
  intro k
  induction k with
  | zero => intro s; rfl
  | succ n ih => intro s; simp [tempFill, ih]

/-- Swapping two positions keeps every element of the list in the list. -/
theorem mem_swapAt {x : Char} {l : List Char} {i j : Nat} (hx : x ∈ l) :
    x ∈ swapAt l i j := by
  unfold swapAt
  split
  next a b hi hj =>
    rw [List.get?_eq_getElem?] at hi hj
    obtain ⟨hi', hia⟩ := List.getElem?_eq_some_iff.mp hi
    obtain ⟨hj', hjb⟩ := List.getElem?_eq_some_iff.mp hj
    obtain ⟨k, hk⟩ := List.mem_iff_getElem?.mp hx
    apply List.mem_iff_getElem?.mpr
    by_cases hkj : k = j
    · have hxb : b = x := by
        have h1 := hj
        rw [← hkj] at h1
        rw [hk] at h1
        exact (Option.some.inj h1).symm
      refine ⟨i, ?_⟩
      by_cases hij : i = j
      · have hab : a = b := by
          have h1 := hi
          rw [hij] at h1
          rw [hj] at h1
          exact (Option.some.inj h1).symm
        rw [hij, List.getElem?_set_self (by simpa using hij ▸ hi'), hab, hxb]
      · rw [List.getElem?_set_ne (fun h => hij h.symm),
            List.getElem?_set_self hi', hxb]
    · by_cases hki : k = i
      · have hxa : a = x := by
          have h1 := hi
          rw [← hki] at h1
          rw [hk] at h1
          exact (Option.some.inj h1).symm
        refine ⟨j, ?_⟩
        rw [List.getElem?_set_self (by simpa using hj'), hxa]
      · refine ⟨k, ?_⟩
        rw [List.getElem?_set_ne (fun h => hkj h.symm),
            List.getElem?_set_ne (fun h => hki h.symm)]
        exact hk
  next => exact hx

/-- The shuffle keeps every element of the list in the list. -/
theorem mem_shuffleAux {x : Char} (rand : Nat → Nat) (base : Nat) :
    ∀ (fuel i : Nat) (chars : List Char), x ∈ chars →
      x ∈ shuffleAux rand base fuel i chars := by
  intro fuel
  induction fuel with
  | zero => intro i chars h; exact h
  | succ n ih =>
    intro i chars h
    simp only [shuffleAux]
    exact ih _ _ (mem_swapAt h)

/-- A modular pick from a non-empty alphabet is a member of it. -/
theorem nthChar_mem {l : List Char} (hl : 0 < l.length) (k : Nat) :
    nthChar l (k % l.length) ∈ l := by
  have hk : k % l.length < l.length := Nat.mod_lt _ hl
  unfold nthChar
  rw [List.getD_eq_getElem?_getD, List.getElem?_eq_getElem hk]
  exact List.getElem_mem hk

/-- Every character of the generator's uppercase alphabet is uppercase. -/
theorem upperSet_isUpper : ∀ c ∈ upperSet, c.isUpper = true := by decide

/-- Every character of the generator's lowercase alphabet is lowercase. -/
theorem lowerSet_isLower : ∀ c ∈ lowerSet, c.isLower = true := by decide

/-- Every character of the generator's digit alphabet is a digit. -/
theorem numberSet_isDigit : ∀ c ∈ numberSet, c.isDigit = true := by decide

/-- The generator's special alphabet is inside the policy's special set. -/
theorem specialSet_sub : ∀ c ∈ specialSet, specialChars.contains c = true := by decide

/-- Claim C9 amended (corrected): for EVERY outcome of the random generator,
the password produced by `generate_temporary_password` (default policy) has
exactly the minimum length 12 and contains at least one uppercase letter,
one lowercase letter, one digit and one policy special character; but it is
NOT guaranteed to respect the repeated-character cap or the deny-list — the
counterexample outcome produces `Aa0!123AAAAA`, which fails
`validate_password_strength`. -/
theorem C9_amended_length_and_classes (rand : Nat → Nat) :
    (generate_temporary_password defaultPolicy rand).length = 12 ∧
    (∃ c ∈ generate_temporary_password defaultPolicy rand, c.isUpper = true) ∧
    (∃ c ∈ generate_temporary_password defaultPolicy rand, c.isLower = true) ∧
    (∃ c ∈ generate_temporary_password defaultPolicy rand, c.isDigit = true) ∧
    (∃ c ∈ generate_temporary_password defaultPolicy rand,
      specialChars.contains c = true) := by
  refine ⟨?_, ?_, ?_, ?_, ?_⟩
  · simp only [generate_temporary_password, shuffle]
    rw [length_shuffleAux]
    simp [length_tempFill, defaultPolicy]
  · refine ⟨nthChar upperSet (rand 0 % upperSet.length), ?_, ?_⟩
    · simp only [generate_temporary_password, shuffle]
      apply mem_shuffleAux
      simp
    · exact upperSet_isUpper _ (nthChar_mem (by decide) (rand 0))
  · refine ⟨nthChar lowerSet (rand 1 % lowerSet.length), ?_, ?_⟩
    · simp only [generate_temporary_password, shuffle]
      apply mem_shuffleAux
      simp
    · exact lowerSet_isLower _ (nthChar_mem (by decide) (rand 1))
  · refine ⟨nthChar numberSet (rand 2 % numberSet.length), ?_, ?_⟩
    · simp only [generate_temporary_password, shuffle]
      apply mem_shuffleAux
      simp
    · exact numberSet_isDigit _ (nthChar_mem (by decide) (rand 2))
  · refine ⟨nthChar specialSet (rand 3 % specialSet.length), ?_, ?_⟩
    · simp only [generate_temporary_password, shuffle]
      apply mem_shuffleAux
      simp
    · exact specialSet_sub _ (nthChar_mem (by decide) (rand 3))

end KenyaAuth
